import Mathlib

/-!
Shallow embedding of the `ApexFramework` configuration holder from
`src/index.ts` of the apex-enhanced repository.

The TypeScript class stores a reference to a configuration object
(`this.config = config`), reads it with a shallow spread copy
(`return { ...this.config }`), merges partial updates with object spread
(`this.config = { ...this.config, ...updates }`), and `initialize()`
(the spec's `announce()`) logs three lines built from the current fields.

To reason about reference sharing and external mutation we model a small
heap of configuration objects: references are natural numbers indexing a
list of object records.  At the JavaScript runtime level every field of a
configuration object may hold either a string/enumeration value or
`undefined`, so object fields are `Option`-valued.  A partial-update
object distinguishes a key that is absent from a key that is present with
value `undefined`, because object spread treats the two differently.
-/

/-- The `environment` union type: `'development' | 'production' | 'test'`. -/
inductive Environment where
  | development
  | production
  | test
deriving DecidableEq, Repr

/-- String form of an `Environment` value, as it appears in template literals. -/
def Environment.toString : Environment → String
  | .development => "development"
  | .production => "production"
  | .test => "test"

/-- A configuration object as it exists at runtime.  The `ApexConfig`
interface declares all three fields required, but at runtime a field can
hold `undefined` (modelled as `none`) after an update that spreads an
explicitly-`undefined` key. -/
structure RuntimeConfig where
  name : Option String
  version : Option String
  environment : Option Environment
deriving DecidableEq, Repr, Inhabited

/-- A statically well-typed `ApexConfig` value: all three fields present
and defined, per the interface declaration. -/
structure ApexConfig where
  name : String
  version : String
  environment : Environment
deriving DecidableEq, Repr

/-- The runtime object denoted by a well-typed `ApexConfig` literal. -/
def ApexConfig.toRuntime (c : ApexConfig) : RuntimeConfig :=
  ⟨some c.name, some c.version, some c.environment⟩

/-- A `Partial<ApexConfig>` argument object.  Each field is `none` when
the key is absent, and `some v` when the key is present with runtime
value `v` (where `v = none` means the key is present with value
`undefined`). -/
structure ConfigUpdates where
  name : Option (Option String)
  version : Option (Option String)
  environment : Option (Option Environment)
deriving DecidableEq, Repr

/-- The empty object literal as an update argument: no keys present. -/
def emptyUpdates : ConfigUpdates := ⟨none, none, none⟩

/-- A reference to a heap-allocated configuration object. -/
abbrev Ref := Nat

/-- The heap of configuration objects: a reference indexes this list. -/
structure Heap where
  objs : List RuntimeConfig
deriving DecidableEq, Repr

/-- Dereference: read the object a reference points to. -/
def Heap.get (h : Heap) (r : Ref) : RuntimeConfig :=
  h.objs.getD r default

/-- Allocate a fresh object, returning the new heap and its reference. -/
def Heap.alloc (h : Heap) (c : RuntimeConfig) : Heap × Ref :=
  (⟨h.objs ++ [c]⟩, h.objs.length)

/-- In-place mutation of the object a reference points to (what a caller
does when it assigns to a field of an object it holds). -/
def Heap.set (h : Heap) (r : Ref) (c : RuntimeConfig) : Heap :=
  ⟨h.objs.set r c⟩

/-- The `ApexFramework` instance state: its single private field
`config`, holding a reference to a configuration object. -/
structure ApexFramework where
  config : Ref
deriving DecidableEq, Repr

/-- `constructor(config: ApexConfig) { this.config = config; }` —
the constructor stores the caller's reference itself, without copying. -/
def ApexFramework.construct (config : Ref) : ApexFramework :=
  ⟨config⟩

/-- Object spread `{ ...c }`: a shallow copy of the fields of `c`.  All
fields here are primitive, so the copy carries exactly the field values. -/
def spreadCopy (c : RuntimeConfig) : RuntimeConfig :=
  ⟨c.name, c.version, c.environment⟩

/-- Object spread merge `{ ...c, ...u }`: keys present in `u` (even with
value `undefined`) override, keys absent from `u` are taken from `c`. -/
def spreadMerge (c : RuntimeConfig) (u : ConfigUpdates) : RuntimeConfig :=
  ⟨u.name.getD c.name, u.version.getD c.version, u.environment.getD c.environment⟩

/-- `getConfig(): ApexConfig { return { ...this.config }; }` — allocates
a fresh object holding a shallow copy of the current configuration and
returns its reference. -/
def ApexFramework.getConfig (fw : ApexFramework) (h : Heap) : Heap × Ref :=
  h.alloc (spreadCopy (h.get fw.config))

/-- `updateConfig(updates) { this.config = { ...this.config, ...updates }; }`
— allocates the merged object and repoints the private field at it.  The
third component is the text written to the output sink during the call:
always empty, the method performs no logging. -/
def ApexFramework.updateConfig (fw : ApexFramework) (h : Heap) (updates : ConfigUpdates) :
    Heap × ApexFramework × List String :=
  let p := h.alloc (spreadMerge (h.get fw.config) updates)
  (p.1, ⟨p.2⟩, [])

/-- How a template literal renders a possibly-`undefined` string field. -/
def jsString : Option String → String
  | none => "undefined"
  | some s => s

/-- How a template literal renders a possibly-`undefined` environment field. -/
def jsEnvString : Option Environment → String
  | none => "undefined"
  | some e => e.toString

/-- The `initialize()` method (the spec's `announce()`): reads the current
configuration and writes three lines to the console.  It performs no
assignment, so it returns the heap and the instance unchanged together
with the emitted lines. -/
def ApexFramework.announce (fw : ApexFramework) (h : Heap) :
    Heap × ApexFramework × List String :=
  let c := h.get fw.config
  (h, fw,
    [ "🚀 APEX Enhanced Framework v" ++ jsString c.version ++ " initialized"
    , "📋 Project: " ++ jsString c.name
    , "🌍 Environment: " ++ jsEnvString c.environment ])

/-- Reading back a freshly allocated object yields the allocated value. -/
theorem Heap.get_alloc (h : Heap) (c : RuntimeConfig) :
    (h.alloc c).1.get (h.alloc c).2 = c := by
  simp [Heap.alloc, Heap.get, List.getD]

/-- Allocation does not disturb existing objects. -/
theorem Heap.get_alloc_lt (h : Heap) (c : RuntimeConfig) (r : Ref)
    (hr : r < h.objs.length) :
    (h.alloc c).1.get r = h.get r := by
  simp [Heap.alloc, Heap.get, List.getD, List.getElem?_append, hr]

/-- Mutating one object does not disturb a different one. -/
theorem Heap.get_set_ne (h : Heap) (r r' : Ref) (c : RuntimeConfig)
    (hne : r ≠ r') :
    (h.set r c).get r' = h.get r' := by
  simp [Heap.set, Heap.get, List.getD, List.getElem?_set_ne hne]

/-- Mutating an existing object replaces its value. -/
theorem Heap.get_set_self (h : Heap) (r : Ref) (c : RuntimeConfig)
    (hr : r < h.objs.length) :
    (h.set r c).get r = c := by
  simp [Heap.set, Heap.get, List.getD, List.getElem?_set_self, hr]

/-- The object a reference denotes is unchanged when the very object it
denotes is re-read after allocating a copy of it (whether or not the
reference is in range). -/
theorem Heap.get_alloc_get (h : Heap) (r : Ref) :
    (h.alloc (h.get r)).1.get r = h.get r := by
  rcases lt_trichotomy r h.objs.length with hlt | heq | hgt
  · exact Heap.get_alloc_lt h _ r hlt
  · subst heq
    simp [Heap.alloc, Heap.get, List.getD]
  · have h1 : h.objs.length ≤ r := le_of_lt hgt
    have h2 : (h.objs ++ [(default : RuntimeConfig)]).length ≤ r := by
      simpa using hgt
    simp [Heap.alloc, Heap.get, List.getD, List.getElem?_eq_none h1,
      List.getElem?_eq_none h2]

/-- A shallow spread copy of a configuration object carries exactly the
same field values. -/
theorem spreadCopy_eq (c : RuntimeConfig) : spreadCopy c = c := rfl

/-- The configuration value observed by a `getConfig` call made right
after `updateConfig`: the spread merge of the prior value and the update. -/
theorem getConfig_after_update (h : Heap) (fw : ApexFramework) (u : ConfigUpdates) :
    (((fw.updateConfig h u).2.1.getConfig (fw.updateConfig h u).1).1).get
      ((fw.updateConfig h u).2.1.getConfig (fw.updateConfig h u).1).2
      = spreadMerge (h.get fw.config) u := by
  simp [ApexFramework.updateConfig, ApexFramework.getConfig, Heap.get_alloc,
    spreadCopy_eq]

/-- Merging the empty update object changes nothing. -/
theorem spreadMerge_empty (c : RuntimeConfig) : spreadMerge c emptyUpdates = c := rfl

/-- The value observed by a single `getConfig` call is the value of the
internal configuration object. -/
theorem getConfig_value (h : Heap) (fw : ApexFramework) :
    (fw.getConfig h).1.get (fw.getConfig h).2 = h.get fw.config := by
  simp [ApexFramework.getConfig, Heap.get_alloc, spreadCopy_eq]

/-! Concrete scenarios used by the spec's examples: the "Factory Test"
update scenario and the "Test Project" announce scenario. -/

/-- `{name: "Factory Test", version: "1.0.0", environment: "development"}`. -/
def factoryConfig : ApexConfig := ⟨"Factory Test", "1.0.0", Environment.development⟩

/-- `{name: "Updated Project", version: "2.0.0"}` as an update argument:
`environment` key absent. -/
def factoryUpdate : ConfigUpdates :=
  ⟨some (some "Updated Project"), some (some "2.0.0"), none⟩

/-- Allocation of the factory-test configuration object in an empty heap. -/
def factoryAlloc : Heap × Ref := (Heap.mk []).alloc factoryConfig.toRuntime

/-- The holder constructed on the factory-test configuration. -/
def factoryFw : ApexFramework := ApexFramework.construct factoryAlloc.2

/-- The state after `updateConfig({name: "Updated Project", version: "2.0.0"})`. -/
def factoryStep : Heap × ApexFramework × List String :=
  factoryFw.updateConfig factoryAlloc.1 factoryUpdate

/-- The `getConfig()` call made after the factory-test update. -/
def factoryRead : Heap × Ref := factoryStep.2.1.getConfig factoryStep.1

/-- The configuration value returned by `getConfig()` after the
factory-test update. -/
def factoryGot : RuntimeConfig := factoryRead.1.get factoryRead.2

/-- `{name: "Test Project", version: "1.0.0", environment: "test"}`. -/
def testConfig : ApexConfig := ⟨"Test Project", "1.0.0", Environment.test⟩

/-- Allocation of the test-project configuration object in an empty heap. -/
def testAlloc : Heap × Ref := (Heap.mk []).alloc testConfig.toRuntime

/-- The holder constructed on the test-project configuration. -/
def testFw : ApexFramework := ApexFramework.construct testAlloc.2

/-- Claim C1: after `updateConfig(u)` the configuration observed by a
subsequent `getConfig()` is the field-wise merge of the previous
configuration and `u`: every field whose key is present in `u` carries
the value given there, and every field whose key is absent retains its
prior value. -/
theorem C1_updateConfig_fieldwise_merge (h : Heap) (fw : ApexFramework)
    (u : ConfigUpdates) :
    ((∀ v, u.name = some v →
        ((((fw.updateConfig h u).2.1.getConfig (fw.updateConfig h u).1).1).get
          ((fw.updateConfig h u).2.1.getConfig (fw.updateConfig h u).1).2).name = v) ∧
      (u.name = none →
        ((((fw.updateConfig h u).2.1.getConfig (fw.updateConfig h u).1).1).get
          ((fw.updateConfig h u).2.1.getConfig (fw.updateConfig h u).1).2).name
          = (h.get fw.config).name)) ∧
    ((∀ v, u.version = some v →
        ((((fw.updateConfig h u).2.1.getConfig (fw.updateConfig h u).1).1).get
          ((fw.updateConfig h u).2.1.getConfig (fw.updateConfig h u).1).2).version = v) ∧
      (u.version = none →
        ((((fw.updateConfig h u).2.1.getConfig (fw.updateConfig h u).1).1).get
          ((fw.updateConfig h u).2.1.getConfig (fw.updateConfig h u).1).2).version
          = (h.get fw.config).version)) ∧
    ((∀ v, u.environment = some v →
        ((((fw.updateConfig h u).2.1.getConfig (fw.updateConfig h u).1).1).get
          ((fw.updateConfig h u).2.1.getConfig (fw.updateConfig h u).1).2).environment = v) ∧
      (u.environment = none →
        ((((fw.updateConfig h u).2.1.getConfig (fw.updateConfig h u).1).1).get
          ((fw.updateConfig h u).2.1.getConfig (fw.updateConfig h u).1).2).environment
          = (h.get fw.config).environment)) := by
  rw [getConfig_after_update h fw u]
  refine ⟨⟨?_, ?_⟩, ⟨?_, ?_⟩, ?_, ?_⟩ <;>
    first
      | (intro v hv; simp [spreadMerge, hv])
      | (intro hv; simp [spreadMerge, hv])

/-- Witness for C1: the spec's factory-test scenario.  The update keys
`name` and `version` are present, `environment` is absent, and the
configuration read back afterwards is
`{name: "Updated Project", version: "2.0.0", environment: "development"}`. -/
theorem C1_updateConfig_fieldwise_merge_witness :
    (factoryUpdate.name = some (some "Updated Project") ∧
      factoryGot.name = some "Updated Project") ∧
    (factoryUpdate.version = some (some "2.0.0") ∧
      factoryGot.version = some "2.0.0") ∧
    (factoryUpdate.environment = none ∧
      factoryGot.environment = some Environment.development) := by
  refine ⟨⟨rfl, ?_⟩, ⟨rfl, ?_⟩, rfl, ?_⟩
  · exact (C1_updateConfig_fieldwise_merge factoryAlloc.1 factoryFw factoryUpdate).1.1
      (some "Updated Project") rfl
  · exact (C1_updateConfig_fieldwise_merge factoryAlloc.1 factoryFw factoryUpdate).2.1.1
      (some "2.0.0") rfl
  · have hp := (C1_updateConfig_fieldwise_merge factoryAlloc.1 factoryFw factoryUpdate).2.2.2
      rfl
    exact hp.trans (by decide)

/-- Claim C2: constructing a holder on a freshly allocated well-typed
configuration and immediately calling `getConfig()` returns a value equal
to the supplied configuration in all three fields. -/
theorem C2_construct_then_getConfig (h : Heap) (c : ApexConfig) :
    ((ApexFramework.construct (h.alloc c.toRuntime).2).getConfig
        (h.alloc c.toRuntime).1).1.get
      ((ApexFramework.construct (h.alloc c.toRuntime).2).getConfig
        (h.alloc c.toRuntime).1).2
      = c.toRuntime := by
  rw [getConfig_value]
  exact Heap.get_alloc h c.toRuntime

/-- Claim C3: `announce()` (the source's `initialize()`) emits exactly
three lines, in fixed order: the banner with the current version, the
"Project" line with the current name, and the "Environment" line with the
current environment; this holds of whatever configuration is currently
held, in particular after any update; and on the test-project
configuration the lines are exactly the three strings the spec lists. -/
theorem C3_announce_three_lines (h : Heap) (fw : ApexFramework) :
    ((fw.announce h).2.2.length = 3 ∧
      (fw.announce h).2.2 =
        [ "🚀 APEX Enhanced Framework v" ++ jsString (h.get fw.config).version
            ++ " initialized"
        , "📋 Project: " ++ jsString (h.get fw.config).name
        , "🌍 Environment: " ++ jsEnvString (h.get fw.config).environment ]) ∧
    (∀ u : ConfigUpdates,
      ((fw.updateConfig h u).2.1.announce (fw.updateConfig h u).1).2.2 =
        [ "🚀 APEX Enhanced Framework v"
            ++ jsString (spreadMerge (h.get fw.config) u).version ++ " initialized"
        , "📋 Project: " ++ jsString (spreadMerge (h.get fw.config) u).name
        , "🌍 Environment: "
            ++ jsEnvString (spreadMerge (h.get fw.config) u).environment ]) ∧
    (testFw.announce testAlloc.1).2.2 =
      [ "🚀 APEX Enhanced Framework v1.0.0 initialized"
      , "📋 Project: Test Project"
      , "🌍 Environment: test" ] := by
  refine ⟨⟨rfl, rfl⟩, ?_, by decide⟩
  intro u
  simp [ApexFramework.announce, ApexFramework.updateConfig, Heap.get_alloc]

/-- Claim C4: `getConfig()` returns a defensive copy.  The returned
reference differs from the holder's internal reference, two successive
calls return distinct objects, and mutating the returned object does not
change the value a subsequent `getConfig()` call observes. -/
theorem C4_getConfig_defensive_copy (h : Heap) (fw : ApexFramework)
    (hr : fw.config < h.objs.length) :
    (fw.getConfig h).2 ≠ fw.config ∧
    (fw.getConfig (fw.getConfig h).1).2 ≠ (fw.getConfig h).2 ∧
    ∀ c' : RuntimeConfig,
      (fw.getConfig (((fw.getConfig h).1).set (fw.getConfig h).2 c')).1.get
        (fw.getConfig (((fw.getConfig h).1).set (fw.getConfig h).2 c')).2
        = h.get fw.config := by
  refine ⟨ne_of_gt hr, ?_, ?_⟩
  · show ((fw.getConfig h).1.alloc _).2 ≠ (h.alloc _).2
    simp [Heap.alloc, ApexFramework.getConfig]
  · intro c'
    rw [getConfig_value]
    show ((h.alloc (spreadCopy (h.get fw.config))).1.set h.objs.length c').get
      fw.config = h.get fw.config
    rw [Heap.get_set_ne _ _ _ _ (ne_of_gt hr)]
    exact Heap.get_alloc_lt h _ fw.config hr

/-- A value a caller writes into the object returned to it by
`getConfig()` in the C4 witness scenario. -/
def hackedValue : RuntimeConfig := ⟨some "Hacked", none, none⟩

/-- Witness for C4 at the test-project scenario: the internal reference
is in range, the returned reference is distinct from it, and mutating the
returned object leaves the subsequently observed value unchanged. -/
theorem C4_getConfig_defensive_copy_witness :
    testFw.config < testAlloc.1.objs.length ∧
    (testFw.getConfig testAlloc.1).2 ≠ testFw.config ∧
    (testFw.getConfig
        (((testFw.getConfig testAlloc.1).1).set (testFw.getConfig testAlloc.1).2
          hackedValue)).1.get
      (testFw.getConfig
        (((testFw.getConfig testAlloc.1).1).set (testFw.getConfig testAlloc.1).2
          hackedValue)).2
      = testAlloc.1.get testFw.config :=
  ⟨by decide,
    (C4_getConfig_defensive_copy testAlloc.1 testFw (by decide)).1,
    (C4_getConfig_defensive_copy testAlloc.1 testFw (by decide)).2.2 hackedValue⟩

/-- The value the caller writes into its own `initial` object after
construction in the C5 scenario. -/
def mutatedValue : RuntimeConfig :=
  ⟨some "Mutated Name", some "1.0.0", some Environment.development⟩

/-- The heap after the caller of the factory-test constructor mutates the
`initial` object it still holds. -/
def mutatedInitialHeap : Heap := factoryAlloc.1.set factoryAlloc.2 mutatedValue

/-- Counterexample to claim C5 as stated: the constructor stores the
caller's reference itself (`this.config = config`), so mutating the
caller's `initial` object after construction DOES change what a later
`getConfig()` returns.  Concretely: construct on
`{name: "Factory Test", ...}`, mutate the initial object's name to
"Mutated Name", and `getConfig()` now reports "Mutated Name". -/
theorem C5_construct_copies_counterexample :
    ((factoryFw.getConfig mutatedInitialHeap).1.get
        (factoryFw.getConfig mutatedInitialHeap).2).name = some "Mutated Name" ∧
    (factoryAlloc.1.get factoryFw.config).name = some "Factory Test" ∧
    (factoryFw.getConfig mutatedInitialHeap).1.get
        (factoryFw.getConfig mutatedInitialHeap).2
      ≠ (factoryFw.getConfig factoryAlloc.1).1.get
          (factoryFw.getConfig factoryAlloc.1).2 := by
  decide

/-- Claim C5 (amended): `construct(initial)` stores the caller's
reference itself, not a copy: the holder's internal state aliases the
`initial` object, so after the caller mutates that object (before any
update), `getConfig()` returns the mutated value. -/
theorem C5_construct_aliases_initial (h : Heap) (r : Ref) (c' : RuntimeConfig)
    (hr : r < h.objs.length) :
    (ApexFramework.construct r).config = r ∧
    ((ApexFramework.construct r).getConfig (h.set r c')).1.get
      ((ApexFramework.construct r).getConfig (h.set r c')).2 = c' := by
  refine ⟨rfl, ?_⟩
  rw [getConfig_value]
  exact Heap.get_set_self h r c' hr

/-- Witness for the amended C5 at the factory-test scenario: the
reference is in range and `getConfig()` after the caller's mutation
returns the mutated value. -/
theorem C5_construct_aliases_initial_witness :
    factoryAlloc.2 < factoryAlloc.1.objs.length ∧
    ((ApexFramework.construct factoryAlloc.2).getConfig mutatedInitialHeap).1.get
      ((ApexFramework.construct factoryAlloc.2).getConfig mutatedInitialHeap).2
      = mutatedValue :=
  ⟨by decide,
    (C5_construct_aliases_initial factoryAlloc.1 factoryAlloc.2 mutatedValue
      (by decide)).2⟩

/-- Claim C6: `updateConfig` with the empty partial leaves the observed
configuration unchanged: `getConfig()` after the call returns the same
value as `getConfig()` before the call. -/
theorem C6_update_empty_noop (h : Heap) (fw : ApexFramework) :
    ((fw.updateConfig h emptyUpdates).2.1.getConfig
        (fw.updateConfig h emptyUpdates).1).1.get
      ((fw.updateConfig h emptyUpdates).2.1.getConfig
        (fw.updateConfig h emptyUpdates).1).2
      = (fw.getConfig h).1.get (fw.getConfig h).2 := by
  rw [getConfig_after_update, getConfig_value, spreadMerge_empty]

/-- Claim C7: `announce()` does not mutate the holder's state: it leaves
the heap and the instance unchanged, and the configuration observed by
`getConfig()` after the call equals the one observed before. -/
theorem C7_announce_no_mutation (h : Heap) (fw : ApexFramework) :
    (fw.announce h).1 = h ∧ (fw.announce h).2.1 = fw ∧
    ((fw.announce h).2.1.getConfig (fw.announce h).1).1.get
      ((fw.announce h).2.1.getConfig (fw.announce h).1).2
      = (fw.getConfig h).1.get (fw.getConfig h).2 :=
  ⟨rfl, rfl, rfl⟩

/-- Claim C8: `updateConfig` writes nothing to the output sink: its
emitted output is empty, in particular it is never the three-line output
an `announce()` call would produce. -/
theorem C8_update_writes_nothing (h : Heap) (fw : ApexFramework)
    (u : ConfigUpdates) :
    (fw.updateConfig h u).2.2 = [] ∧
    (fw.updateConfig h u).2.2
      ≠ ((fw.updateConfig h u).2.1.announce (fw.updateConfig h u).1).2.2 := by
  refine ⟨rfl, ?_⟩
  simp [ApexFramework.updateConfig, ApexFramework.announce]

/-- Witness for C8 (its second conjunct is stated as a disequality, so we
exhibit the concrete factory-test update call): the update emits no
output. -/
theorem C8_update_writes_nothing_witness :
    (factoryFw.updateConfig factoryAlloc.1 factoryUpdate).2.2 = [] :=
  (C8_update_writes_nothing factoryAlloc.1 factoryFw factoryUpdate).1

/-- Claim C9: two `getConfig()` calls in a row, with no intervening
update, observe equal values. -/
theorem C9_getConfig_deterministic (h : Heap) (fw : ApexFramework) :
    (fw.getConfig h).1.get (fw.getConfig h).2
      = (fw.getConfig (fw.getConfig h).1).1.get
          (fw.getConfig (fw.getConfig h).1).2 := by
  rw [getConfig_value, getConfig_value]
  show h.get fw.config = (h.alloc (spreadCopy (h.get fw.config))).1.get fw.config
  rw [spreadCopy_eq]
  exact (Heap.get_alloc_get h fw.config).symm

/-- `{name: undefined}` as an update argument: the `name` key is present
with value `undefined`, the other keys are absent. -/
def undefinedNameUpdate : ConfigUpdates := ⟨some none, none, none⟩

/-- Claim C10: because `updateConfig` merges with object spread, a key
present in the partial with value `undefined` overwrites the stored field
with `undefined` instead of retaining its prior value: after
`updateConfig({name: undefined})`, `getConfig()` observes an `undefined`
name while the other fields keep their prior values. -/
theorem C10_undefined_key_overwrites (h : Heap) (fw : ApexFramework) :
    (((fw.updateConfig h undefinedNameUpdate).2.1.getConfig
        (fw.updateConfig h undefinedNameUpdate).1).1.get
      ((fw.updateConfig h undefinedNameUpdate).2.1.getConfig
        (fw.updateConfig h undefinedNameUpdate).1).2).name = none ∧
    (((fw.updateConfig h undefinedNameUpdate).2.1.getConfig
        (fw.updateConfig h undefinedNameUpdate).1).1.get
      ((fw.updateConfig h undefinedNameUpdate).2.1.getConfig
        (fw.updateConfig h undefinedNameUpdate).1).2).version
      = (h.get fw.config).version ∧
    (((fw.updateConfig h undefinedNameUpdate).2.1.getConfig
        (fw.updateConfig h undefinedNameUpdate).1).1.get
      ((fw.updateConfig h undefinedNameUpdate).2.1.getConfig
        (fw.updateConfig h undefinedNameUpdate).1).2).environment
      = (h.get fw.config).environment := by
  rw [getConfig_after_update]
  simp [spreadMerge, undefinedNameUpdate]

